import Mathlib

/-!
Verification development for the Program Planning Assistant backend
(Express server `backend/src/server.js` and Mongoose models
`backend/src/models.js`).  The JavaScript handlers are shallowly embedded
as pure Lean functions over explicit state; Mongo documents become Lean
structures, JSON request values become the `JVal` type below, and
JavaScript truthiness / `||` defaulting is modelled explicitly.
-/

namespace ProgramPlanning

/-- A JSON-style JavaScript value as received in a request body. -/
inductive JVal where
  | jstr (s : String)
  | jnum (n : Int)
  | jbool (b : Bool)
  | jnull
deriving DecidableEq, Repr

/-- JavaScript truthiness of a `JVal` (`''`, `0`, `false`, `null` are falsy). -/
def jsTruthy : JVal → Bool
  | .jstr s => s ≠ ""
  | .jnum n => n ≠ 0
  | .jbool b => b
  | .jnull => false

/-- `typeof v === 'string'`. -/
def isJStr : JVal → Bool
  | .jstr _ => true
  | _ => false

/-- The string payload of a `JVal` (only meaningful for strings). -/
def jstrVal : JVal → String
  | .jstr s => s
  | _ => ""

/-- Truthiness of a possibly-absent value (`undefined` is falsy). -/
def jsTruthyOpt : Option JVal → Bool
  | none => false
  | some v => jsTruthy v

/-- ASCII lower-casing of one character (`String.prototype.toLowerCase`
restricted to ASCII, which covers all data this server lower-cases). -/
def lowerChar (c : Char) : Char :=
  if 'A' ≤ c ∧ c ≤ 'Z' then Char.ofNat (c.toNat + 32) else c

/-- `s.toLowerCase()` (ASCII). -/
def lowerStr (s : String) : String := ⟨s.data.map lowerChar⟩

/-- `s.trim()`: strip leading and trailing whitespace. -/
def trimStr (s : String) : String :=
  ⟨((s.data.dropWhile Char.isWhitespace).reverse.dropWhile Char.isWhitespace).reverse⟩

/-- JavaScript `s || d` for strings: the empty string is falsy. -/
def jsOrStr (s d : String) : String := if s = "" then d else s

/-- JavaScript `o || d` where `o` may be absent (`undefined`/`null` → default). -/
def jsOrOptStr (o : Option String) (d : String) : String := jsOrStr (o.getD "") d

/-- `(e || '').trim().toLowerCase()` — the server's `normEmail` helper. -/
def normEmail (e : Option String) : String := lowerStr (trimStr (e.getD ""))

/-- The possibly-absent value is absent, or present with a falsy value. -/
def absentOrFalsy (o : Option JVal) : Prop :=
  o = none ∨ ∃ v, o = some v ∧ jsTruthy v = false

/-! ## POST /api/chat and POST /api/auth/login request validation -/

/-- Body of a `POST /api/chat` request (only the validated field). -/
structure ChatBody where
  message : Option JVal

/-- The `POST /api/chat` 400-guard (server.js:205):
`!message || typeof message !== 'string' || message.trim().length === 0`. -/
def chatMessageRejected (body : ChatBody) : Bool :=
  match body.message with
  | none => true
  | some v => !jsTruthy v || !isJStr v || (trimStr (jstrVal v)).length == 0

/-- Body of a `POST /api/auth/login` request. -/
structure LoginBody where
  vanderbiltId : Option JVal
  email : Option JVal
  firstName : Option JVal
  lastName : Option JVal
  role : Option JVal

/-- The `POST /api/auth/login` 400-guard (server.js:48):
`!vanderbiltId || !email || !firstName || !lastName`. -/
def loginMissingFields (b : LoginBody) : Bool :=
  !jsTruthyOpt b.vanderbiltId || !jsTruthyOpt b.email ||
    !jsTruthyOpt b.firstName || !jsTruthyOpt b.lastName

/-! ## The chat keyword patterns `MSG_RE` (server.js:120-134)

A small regular-expression engine sufficient for the three patterns
`MSG_RE.alcohol`, `MSG_RE.tech`, `MSG_RE.minors`: case-insensitive
alternation of literals with `\s`, `\s*` and `\b` (JS word boundary).
-/

/-- One atom of a compiled pattern alternative. -/
inductive RAtom where
  | lit (c : Char)
  | ws1
  | wsStar
  | wb
deriving DecidableEq, Repr

/-- JS word character `[A-Za-z0-9_]` (ASCII, as in `\b` / `\w`). -/
def jsWordChar (c : Char) : Bool := c.isAlpha || c.isDigit || c = '_'

/-- Word-character test for an optional character (out of range = non-word). -/
def optWord : Option Char → Bool
  | some c => jsWordChar c
  | none => false

/-- JS `\b`: positions where word-ness changes between the previous
character and the next character. -/
def atBoundary (prev : Option Char) (s : List Char) : Bool :=
  optWord prev != optWord s.head?

/-- Match a compiled alternative at the start of `s`; `prev` is the
character immediately before `s` in the subject (for `\b`). -/
def matchAtoms : List RAtom → Option Char → List Char → Bool
  | [], _, _ => true
  | .lit c :: rest, _, d :: s => d == c && matchAtoms rest (some d) s
  | .lit _ :: _, _, [] => false
  | .ws1 :: rest, _, d :: s => d.isWhitespace && matchAtoms rest (some d) s
  | .ws1 :: _, _, [] => false
  | .wsStar :: rest, prev, s =>
      matchAtoms rest prev s ||
        (match s with
         | d :: s' => d.isWhitespace && matchAtoms (.wsStar :: rest) (some d) s'
         | [] => false)
  | .wb :: rest, prev, s => atBoundary prev s && matchAtoms rest prev s
termination_by atoms _ s => (s.length, atoms.length)

/-- Search all start positions for any alternative (as JS `RegExp.test`). -/
def reSearch (alts : List (List RAtom)) : Option Char → List Char → Bool
  | prev, s =>
      alts.any (fun a => matchAtoms a prev s) ||
        (match s with
         | c :: s' => reSearch alts (some c) s'
         | [] => false)
termination_by _ s => s.length

/-- Case-insensitive `RegExp.test` on a message string. -/
def reTest (alts : List (List RAtom)) (msg : String) : Bool :=
  reSearch alts none (lowerStr msg).data

/-- Compile a lowercase literal word into atoms. -/
def lits (s : String) : List RAtom := s.data.map RAtom.lit

/-- Wrap an alternative in the surrounding `\b ... \b` of the patterns. -/
def wrapWB (a : List RAtom) : List RAtom := RAtom.wb :: a ++ [RAtom.wb]

/-- `MSG_RE.alcohol = /\b(alcohol|beer|wine|bartend|wet\s*event|id\s*check|21\+)\b/i`. -/
def MSG_RE_alcohol : List (List RAtom) :=
  [lits "alcohol", lits "beer", lits "wine", lits "bartend",
   lits "wet" ++ [RAtom.wsStar] ++ lits "event",
   lits "id" ++ [RAtom.wsStar] ++ lits "check",
   lits "21+"].map wrapWB

/-- `MSG_RE.tech` (server.js:122): alternation with `email(s)?`, `wi-?fi`,
`it\s`, `record(ing)?`, `av\b`, etc. -/
def MSG_RE_tech : List (List RAtom) :=
  [lits "email", lits "emails",
   lits "bulk" ++ [RAtom.wsStar] ++ lits "email",
   lits "mass" ++ [RAtom.wsStar] ++ lits "email",
   lits "listserv", lits "mailchimp",
   lits "social" ++ [RAtom.wsStar] ++ lits "media",
   lits "wifi", lits "wi-fi",
   lits "it" ++ [RAtom.ws1],
   lits "cyber", lits "malware", lits "password", lits "credential",
   lits "record", lits "recording",
   lits "av" ++ [RAtom.wb],
   lits "software", lits "download", lits "install", lits "byod",
   lits "device", lits "hipaa", lits "ferpa"].map wrapWB

/-- `MSG_RE.minors = /\b(minor(s)?|under\s*18|youth|camp|K-?12|child|children)\b/i`. -/
def MSG_RE_minors : List (List RAtom) :=
  [lits "minor", lits "minors",
   lits "under" ++ [RAtom.wsStar] ++ lits "18",
   lits "youth", lits "camp",
   lits "k12", lits "k-12",
   lits "child", lits "children"].map wrapWB

/-! ## Policy relevance for chat (server.js:126-168) -/

/-- The fields of a loaded `ProgramPlan` that relevance filtering reads. -/
structure PlanDoc where
  programType : Option String
  locationType : Option String
  hasAlcohol : Bool
deriving DecidableEq, Repr

/-- `isAlcoholRelevant` (server.js:126-128). -/
def isAlcoholRelevant (message : String) (plan : Option PlanDoc) : Bool :=
  reTest MSG_RE_alcohol message ||
    (match plan with
     | some p => p.hasAlcohol
     | none => false)

/-- `isTechRelevant` (server.js:129-131). -/
def isTechRelevant (message : String) : Bool := reTest MSG_RE_tech message

/-- `isMinorsRelevant` (server.js:132-134). -/
def isMinorsRelevant (message : String) : Bool := reTest MSG_RE_minors message

/-- `plan?.location?.type || 'on-campus'` (server.js:142). -/
def campusOf (plan : Option PlanDoc) : String :=
  jsOrOptStr (plan.bind PlanDoc.locationType) "on-campus"

/-- The `want` category list built by `buildPolicyContext` (server.js:145-168). -/
def buildPolicyContextWant (plan : Option PlanDoc) (message : String) :
    List String :=
  (if campusOf plan = "on-campus" then ["Use of Space", "Space Booking"] else [])
    ++ ["Marketing and Communications", "Marketing"]
    ++ (if isAlcoholRelevant message plan then ["Alcohol Policy", "Alcohol"] else [])
    ++ (if isTechRelevant message then ["Technology", "Electronic Communications"] else [])
    ++ (if isMinorsRelevant message then ["Protection of Minors"] else [])

/-! ## The Event document (models.js:229-344) and its save hook -/

/-- One checklist item of an Event (models.js:258-271).  `timingType = ""`
models an absent/falsy value (the schema default is `'recommended'`,
applied by the route handlers' `||` chains).  Dates are local-time
milliseconds. -/
structure ChecklistItem where
  task : String
  description : String
  dueDate : Option Nat
  priority : String
  completed : Bool
  isTimeHeader : Bool
  timingType : String
deriving DecidableEq, Repr

/-- The per-event notification settings (models.js:294-297). -/
structure NotificationSettings where
  emailOptIn : Option Bool
  reminderDays : Option Nat
deriving DecidableEq, Repr

/-- One entry of `collaborators` (models.js:307-316).  `userId = none`
models a null/absent id (Mixed type in the schema). -/
structure Collaborator where
  userId : Option String
  email : String
  firstName : String
  lastName : String
  permission : String
  addedAt : Nat
  addedBy : Option String
  lastActive : Nat
deriving DecidableEq, Repr

/-- One entry of `activityLog` (models.js:320-327); the free-form
`metadata` display payload is not modelled. -/
structure ActivityEntry where
  userId : Option String
  userName : String
  action : String
  description : String
  timestamp : Nat
deriving DecidableEq, Repr

/-- An Event document (models.js:229-344), restricted to the fields the
verified handlers read or write. -/
structure Event where
  userId : String
  owner : Option String
  title : String
  description : String
  checklist : List ChecklistItem
  notifications : NotificationSettings
  shareId : Option String
  shareEnabled : Bool
  shareCreatedAt : Option Nat
  collaborationEnabled : Bool
  collaborationId : Option String
  collaborators : List Collaborator
  activityLog : List ActivityEntry
  createdAt : Nat
  updatedAt : Nat
deriving DecidableEq, Repr

/-- `EventSchema.pre('save')` (models.js:347-356): stamp `updatedAt` and
default `owner` to `userId` when owner is unset. -/
def eventPreSave (now : Nat) (ev : Event) : Event :=
  { ev with
    updatedAt := now
    owner :=
      if ev.owner.getD "" = "" ∧ ev.userId ≠ "" then some ev.userId
      else ev.owner }

/-! ## The Policy document (models.js:62-96) and its validate hook -/

/-- A Policy document. -/
structure PolicyDoc where
  category : String
  title : String
  description : String
  requirements : List String
  citations : List String
  tags : List String
  roleVisibility : String
  applicableRoles : Option (List String)
  programTypes : List String
  severity : String
deriving DecidableEq, Repr

/-- `PolicySchema.pre('validate')` (models.js:99-108): derive
`roleVisibility` from a non-empty `applicableRoles` array and map the
severity synonym `'high'` to `'warning'`. -/
def policyPreValidate (p : PolicyDoc) : PolicyDoc :=
  let p1 :=
    match p.applicableRoles with
    | some roles =>
        if roles.length ≠ 0 then
          let set := roles.map lowerStr
          let rv :=
            if "student" ∈ set ∧ "staff" ∈ set then "both"
            else if "student" ∈ set then "student"
            else if "staff" ∈ set then "staff"
            else if "both" ∈ set then "both"
            else p.roleVisibility
          { p with roleVisibility := rv }
        else p
    | none => p
  if p1.severity = "high" then { p1 with severity := "warning" } else p1

/-! ## PUT /api/events/:id — checklist and notifications merge
(server.js:553-636) -/

/-- JS `hay.includes(sub)` on strings. -/
def jsIncludes (hay sub : String) : Bool :=
  (List.range (hay.data.length + 1)).any fun i => sub.data.isPrefixOf (hay.data.drop i)

/-- The duplicate test of the checklist merge (server.js:600-602):
case-insensitive containment of the other task's first 20 characters,
in either direction. -/
def taskOverlap (existingTask newTask : String) : Bool :=
  jsIncludes (lowerStr existingTask) ((lowerStr newTask).take 20) ||
    jsIncludes (lowerStr newTask) ((lowerStr existingTask).take 20)

/-- `item.timingType || existingChecklist[idx]?.timingType || 'recommended'`
(server.js:593-596). -/
def timingTypeFor (existing : List ChecklistItem) (idx : Nat)
    (item : ChecklistItem) : String :=
  jsOrStr item.timingType
    (jsOrStr ((existing.get? idx).elim "" ChecklistItem.timingType) "recommended")

/-- The checklist part of the `PUT /api/events/:id` update
(server.js:575-620).  `none` means the handler deleted
`updateData.checklist`, leaving the stored checklist untouched. -/
def mergeChecklistPut (existing incoming : List ChecklistItem) :
    Option (List ChecklistItem) :=
  if incoming.length = existing.length then
    some (incoming.enum.map fun p =>
      { p.2 with timingType := timingTypeFor existing p.1 p.2 })
  else
    let newItems := incoming.filter fun n =>
      !(existing.any fun e => taskOverlap e.task n.task)
    if newItems.length ≠ 0 then
      some (existing ++ newItems.map fun item =>
        { item with timingType := jsOrStr item.timingType "recommended" })
    else none

/-- The checklist stored by `PUT /api/events/:id` when the body carries a
checklist array. -/
def storedChecklistPut (existing incoming : List ChecklistItem) :
    List ChecklistItem :=
  (mergeChecklistPut existing incoming).getD existing

/-- The notification fields a request body may carry (outer `Option` =
key present in the body object). -/
structure BodyNotifications where
  emailOptIn : Option (Option Bool)
  reminderDays : Option (Option Nat)
deriving DecidableEq, Repr

/-- `{ ...(existingEvent.notifications || {}), ...req.body.notifications }`
(server.js:568-573). -/
def mergeNotificationsPut (ex : NotificationSettings) (body : BodyNotifications) :
    NotificationSettings :=
  { emailOptIn := body.emailOptIn.getD ex.emailOptIn
    reminderDays := body.reminderDays.getD ex.reminderDays }

/-! ## POST /api/events/:id/share and POST /api/events/:id/collaboration/enable
(server.js:652-680, 709-750)

The fresh random token (`crypto.randomBytes(...).toString('base64url')`)
is passed in as a parameter; the database is assumed connected (the 503
branch is not modelled). -/

/-- Result of a token-creating endpoint: HTTP status, the id returned in
the JSON response, and the newly stored event when a save occurred. -/
structure TokenResult where
  status : Nat
  tokenOut : Option String
  saved : Option Event
deriving DecidableEq, Repr

/-- `POST /api/events/:id/share` (server.js:652-680). -/
def createShareLink (found : Option Event) (freshToken : String) (now : Nat) :
    TokenResult :=
  match found with
  | none => ⟨404, none, none⟩
  | some ev =>
      if ev.shareEnabled = false ∨ ev.shareId.getD "" = "" then
        let ev' := eventPreSave now
          { ev with shareId := some freshToken, shareEnabled := true,
                    shareCreatedAt := some now }
        ⟨200, ev'.shareId, some ev'⟩
      else
        ⟨200, ev.shareId, none⟩

/-- `POST /api/events/:id/collaboration/enable` (server.js:709-750).
No requester identity is read: the handler trusts the caller. -/
def enableCollaboration (found : Option Event) (freshToken : String) (now : Nat) :
    TokenResult :=
  match found with
  | none => ⟨404, none, none⟩
  | some ev =>
      if ev.collaborationEnabled = false then
        let ev1 :=
          { ev with
            collaborationId := some freshToken
            collaborationEnabled := true
            activityLog := ev.activityLog ++
              [⟨some ev.userId, "Event Owner", "created",
                "Enabled collaboration for this event", now⟩] }
        let ev' := eventPreSave now ev1
        ⟨200, ev'.collaborationId, some ev'⟩
      else
        ⟨200, ev.collaborationId, none⟩

/-! ## The daily reminder cron job (server.js:1288-1389) -/

/-- A user document, as read by the cron job and the collaborate GET. -/
structure UserDoc where
  vanderbiltId : String
  email : String
  firstName : String
  lastName : String
deriving DecidableEq, Repr

/-- Milliseconds per day; timestamps are local-time milliseconds, so
`t / msPerDay` is the calendar day of `t`. -/
def msPerDay : Nat := 86400000

/-- `ev.notifications?.reminderDays || 5` (server.js:1365). -/
def reminderDaysOf (ev : Event) : Nat :=
  match ev.notifications.reminderDays with
  | some n => if n = 0 then 5 else n
  | none => 5

/-- The due-task filter of the cron sweep (server.js:1366-1375): not a
time header, not completed, with a due date on the calendar day
`reminderDays` days after today. -/
def dueTasksFor (now : Nat) (ev : Event) : List ChecklistItem :=
  ev.checklist.filter fun it =>
    !it.isTimeHeader && !it.completed && it.dueDate.isSome &&
      (it.dueDate.getD 0) / msPerDay == now / msPerDay + reminderDaysOf ev

/-- One reminder email as assembled by `sendReminderEmail`
(server.js:1328-1354). -/
structure ReminderEmail where
  sendTo : String
  eventTitle : String
  tasks : List ChecklistItem
  reminderDays : Nat
deriving DecidableEq, Repr

/-- The per-event body of the cron loop (server.js:1363-1385): skip when
no due task, skip when the user record is missing or has no email,
otherwise send exactly one email. -/
def eventReminder (now : Nat) (findUser : String → Option UserDoc) (ev : Event) :
    Option ReminderEmail :=
  let dueTasks := dueTasksFor now ev
  if dueTasks.isEmpty then none
  else
    match findUser ev.userId with
    | none => none
    | some u => if u.email = "" then none
        else some ⟨u.email, ev.title, dueTasks, reminderDaysOf ev⟩

/-- One run of the cron job (server.js:1357-1389): the query keeps events
whose `notifications.emailOptIn` is not `false`, then the loop emits at
most one email per event.  The job writes nothing. -/
def cronDailyRun (now : Nat) (findUser : String → Option UserDoc)
    (events : List Event) : List ReminderEmail :=
  (events.filter fun ev => ev.notifications.emailOptIn ≠ some false).filterMap
    (eventReminder now findUser)

/-- The schedule expression of the single `cron.schedule` call
(server.js:1357): daily at 08:00 server time. -/
def cronScheduleSpec : String := "0 8 * * *"

/-! ## GET /api/notifications/unsubscribe (server.js:1302-1326) -/

/-- `signUnsubscribe` (server.js:1302-1306): the HMAC-SHA256 primitive
(keyed by `JWT_SECRET`) is abstracted as `hmac`; the handler signs the
string `userId + '|' + eventId`. -/
def signUnsubscribe (hmac : String → String) (userId eventId : String) : String :=
  hmac (userId ++ "|" ++ eventId)

/-- `GET /api/notifications/unsubscribe` (server.js:1308-1326).  Returns
the HTTP status and the newly stored event when a save occurred. -/
def unsubscribeHandler (hmac : String → String)
    (findById : String → Option Event)
    (uid eid sig : Option String) (now : Nat) : Nat × Option Event :=
  if uid.getD "" = "" ∨ eid.getD "" = "" ∨ sig.getD "" = "" then (400, none)
  else if sig.getD "" ≠ signUnsubscribe hmac (uid.getD "") (eid.getD "") then
    (400, none)
  else
    match findById (eid.getD "") with
    | none => (404, none)
    | some ev =>
        if ev.userId ≠ uid.getD "" then (404, none)
        else
          (200, some (eventPreSave now
            { ev with notifications :=
                { ev.notifications with emailOptIn := some false } }))

/-! ## PUT /api/collaborate/:collaborationId (server.js:933-1023) -/

/-- The destructured body of the collaborate PUT.  `restKeys` lists the
keys of `updateData` other than `checklist`; the corresponding field
assignments are passed separately as a function (`Object.assign` with
arbitrary JSON keys). -/
structure CollabPutBody where
  userId : Option String
  userName : Option String
  email : Option String
  checklist : Option (List ChecklistItem)
  restKeys : List String

/-- The collaborator-matching predicate (server.js:959-963): match by
truthy userId equality or by normalized email. -/
def collabMatches (userId : Option String) (email : String)
    (c : Collaborator) : Bool :=
  (userId.getD "" ≠ "" && c.userId.getD "" ≠ "" && c.userId.getD "" == userId.getD "")
    || (email ≠ "" && lowerStr (trimStr c.email) == email)

/-- `String(event.owner || event.userId)` (server.js:958). -/
def effectiveOwner (ev : Event) : String := jsOrOptStr ev.owner ev.userId

/-- `isOwner` (server.js:958). -/
def collabIsOwner (ev : Event) (userId : Option String) : Bool :=
  userId.getD "" ≠ "" && effectiveOwner ev == userId.getD ""

/-- `hasEditPermission` (server.js:965): owner, or first matching
collaborator with `edit`/`admin` permission. -/
def collabHasEditPermission (ev : Event) (userId : Option String)
    (email : String) : Bool :=
  collabIsOwner ev userId ||
    (match ev.collaborators.find? (collabMatches userId email) with
     | some c => c.permission == "edit" || c.permission == "admin"
     | none => false)

/-- Update the first list element satisfying `p` (in-place mutation of
the object returned by `find`). -/
def updateFirstMatch (p : α → Bool) (f : α → α) : List α → List α
  | [] => []
  | x :: xs => if p x then f x :: xs else x :: updateFirstMatch p f xs

/-- The lastActive/userId-binding mutation of the matched collaborator
(server.js:973-978). -/
def touchCollaborator (userId : Option String) (now : Nat)
    (c : Collaborator) : Collaborator :=
  { c with
    userId :=
      if c.userId.getD "" = "" ∧ userId.getD "" ≠ "" then userId else c.userId
    lastActive := now }

/-- The checklist-toggle activity entries (server.js:981-997). -/
def checklistActivity (uid : Option String) (userName : String) (now : Nat)
    (oldChecklist newChecklist : List ChecklistItem) : List ActivityEntry :=
  newChecklist.enum.filterMap fun p =>
    match oldChecklist.get? p.1 with
    | some oldItem =>
        if p.2.completed ≠ oldItem.completed then
          some ⟨uid, userName,
                if p.2.completed then "completed_task" else "uncompleted_task",
                (if p.2.completed then "Completed" else "Uncompleted")
                  ++ " task: " ++ p.2.task,
                now⟩
        else none
    | none => none

/-- Result of the collaborate PUT: HTTP status and the stored event when
a save occurred. -/
structure CollabPutResult where
  status : Nat
  saved : Option Event

/-- `PUT /api/collaborate/:collaborationId` (server.js:933-1023).
`found` is the `findOne({collaborationId, collaborationEnabled: true})`
result; `rest` applies the non-checklist keys of `updateData`
(`Object.assign`). -/
def collabPutHandler (found : Option Event) (body : CollabPutBody)
    (rest : Event → Event) (now : Nat) : CollabPutResult :=
  if body.userId.getD "" = "" ∧ normEmail body.email = "" then ⟨400, none⟩
  else
    match found with
    | none => ⟨404, none⟩
    | some ev =>
        if !collabHasEditPermission ev body.userId (normEmail body.email) then
          ⟨403, none⟩
        else
          let email := normEmail body.email
          let uid := if body.userId.getD "" = "" then none else body.userId
          let userName := jsOrOptStr body.userName "Unknown User"
          let touched :=
            updateFirstMatch (collabMatches body.userId email)
              (touchCollaborator body.userId now) ev.collaborators
          let ev1 :=
            if (ev.collaborators.find? (collabMatches body.userId email)).isSome then
              { ev with collaborators := touched }
            else ev
          let logs :=
            match body.checklist with
            | some newCl => checklistActivity uid userName now ev.checklist newCl
            | none => []
          let ev2 := { ev1 with activityLog := ev1.activityLog ++ logs }
          let ev3 :=
            match body.checklist with
            | some c => { (rest ev2) with checklist := c }
            | none => rest ev2
          let ev4 := { ev3 with updatedAt := now }
          let updateKeyCount :=
            body.restKeys.length + (if body.checklist.isSome then 1 else 0)
          let ev5 :=
            if updateKeyCount = 1 ∧ body.checklist.isSome then ev4
            else
              { ev4 with activityLog := ev4.activityLog ++
                  [⟨uid, userName, "updated", "Updated event details", now⟩] }
          ⟨200, some (eventPreSave now ev5)⟩

/-! ## GET /public/events/:shareId (server.js:683-705)

This handler projects arbitrary document keys, so the event is modelled
generically as a partial map from field names to values. -/

/-- A raw (`.lean()`) document: a partial map from keys to values. -/
def JDoc := String → Option JVal

/-- `Event.findOne({ shareId, shareEnabled: true })`. -/
def findSharedEvent (db : List JDoc) (sid : String) : Option JDoc :=
  db.find? fun d =>
    decide (d "shareId" = some (JVal.jstr sid)) &&
      decide (d "shareEnabled" = some (JVal.jbool true))

/-- `const { _id, userId, __v, ...publicEvent } = event;
res.json({ ...publicEvent, id: event._id })` (server.js:695-696). -/
def publicEventResponse (ev : JDoc) : JDoc := fun k =>
  if k = "id" then ev "_id"
  else if k = "_id" ∨ k = "userId" ∨ k = "__v" then none
  else ev k

/-- `getPublicEventHandler` (server.js:683-705): status, optional
response document, and the (unchanged) database. -/
def getPublicEventHandler (db : List JDoc) (sid : String) :
    Nat × Option JDoc × List JDoc :=
  match findSharedEvent db sid with
  | some ev => (200, some (publicEventResponse ev), db)
  | none => (404, none, db)

/-! ## Helper lemmas -/

/-- `isAlcoholRelevant` unpacked to a proposition. -/
lemma isAlcoholRelevant_iff (message : String) (plan : Option PlanDoc) :
    isAlcoholRelevant message plan = true ↔
      (reTest MSG_RE_alcohol message = true ∨
        ∃ p, plan = some p ∧ p.hasAlcohol = true) := by
  cases plan with
  | none => simp [isAlcoholRelevant]
  | some p => simp [isAlcoholRelevant]

/-! ## C2: policy relevance is pure keyword matching plus plan flags -/

/-- C2: the categories requested by `buildPolicyContext` are exactly:
Alcohol iff the alcohol pattern matches or the plan has `hasAlcohol`;
Technology/Electronic Communications iff the tech pattern matches;
Protection of Minors iff the minors pattern matches; Marketing always;
and the space-booking categories iff the plan's location type is
`'on-campus'` (the default when no plan or location is present). -/
theorem policy_relevance_keyword_matching (plan : Option PlanDoc) (message : String) :
    (("Alcohol Policy" ∈ buildPolicyContextWant plan message ∧
        "Alcohol" ∈ buildPolicyContextWant plan message) ↔
      (reTest MSG_RE_alcohol message = true ∨
        ∃ p, plan = some p ∧ p.hasAlcohol = true)) ∧
    (("Technology" ∈ buildPolicyContextWant plan message ∧
        "Electronic Communications" ∈ buildPolicyContextWant plan message) ↔
      reTest MSG_RE_tech message = true) ∧
    ("Protection of Minors" ∈ buildPolicyContextWant plan message ↔
      reTest MSG_RE_minors message = true) ∧
    ("Marketing and Communications" ∈ buildPolicyContextWant plan message ∧
      "Marketing" ∈ buildPolicyContextWant plan message) ∧
    (("Use of Space" ∈ buildPolicyContextWant plan message ∧
        "Space Booking" ∈ buildPolicyContextWant plan message) ↔
      campusOf plan = "on-campus") := by
  rw [← isAlcoholRelevant_iff]
  by_cases h1 : campusOf plan = "on-campus" <;>
    by_cases h2 : isAlcoholRelevant message plan = true <;>
      by_cases h3 : reTest MSG_RE_tech message = true <;>
        by_cases h4 : reTest MSG_RE_minors message = true <;>
          simp [buildPolicyContextWant, isTechRelevant, isMinorsRelevant,
            h1, h2, h3, h4]

/-! ## C7: request validation to HTTP 400 -/

/-- A string has length zero exactly when it is empty. -/
lemma string_length_zero_iff (s : String) : s.length = 0 ↔ s = "" := by
  constructor
  · intro h
    cases s with
    | mk data =>
        simp [String.length] at h
        simp [h]
  · intro h
    simp [h]

/-- Falsiness of an optional request value, unpacked. -/
lemma jsTruthyOpt_eq_false_iff (o : Option JVal) :
    jsTruthyOpt o = false ↔ absentOrFalsy o := by
  cases o with
  | none => simp [jsTruthyOpt, absentOrFalsy]
  | some v => simp [jsTruthyOpt, absentOrFalsy]

/-- C7 (amended): `POST /api/chat` rejects with 400 exactly when the
message is absent, not a string, or trims to the empty string; and
`POST /api/auth/login` rejects with 400 exactly when one of
vanderbiltId, email, firstName, lastName is absent or falsy (e.g. the
empty string). -/
theorem request_validation_400 (cb : ChatBody) (lb : LoginBody) :
    (chatMessageRejected cb = true ↔
      (cb.message = none ∨
        (∃ v, cb.message = some v ∧ isJStr v = false) ∨
        (∃ s, cb.message = some (JVal.jstr s) ∧ trimStr s = ""))) ∧
    (loginMissingFields lb = true ↔
      (absentOrFalsy lb.vanderbiltId ∨ absentOrFalsy lb.email ∨
        absentOrFalsy lb.firstName ∨ absentOrFalsy lb.lastName)) := by
  constructor
  · cases hm : cb.message with
    | none => simp [chatMessageRejected, hm]
    | some v =>
        cases v with
        | jstr s =>
            simp [chatMessageRejected, hm, jsTruthy, isJStr, jstrVal,
              Nat.beq_eq_true_eq, string_length_zero_iff]
            intro hs
            subst hs
            decide
        | jnum n => simp [chatMessageRejected, hm, isJStr]
        | jbool b => simp [chatMessageRejected, hm, isJStr]
        | jnull => simp [chatMessageRejected, hm, isJStr]
  · simp [loginMissingFields, ← jsTruthyOpt_eq_false_iff,
      Bool.or_eq_true, Bool.not_eq_true']
    tauto

/-- A login body whose `vanderbiltId` is present but empty. -/
def loginBodyEmptyId : LoginBody :=
  ⟨some (JVal.jstr ""), some (JVal.jstr "ann@example.edu"),
   some (JVal.jstr "Ann"), some (JVal.jstr "Lee"), none⟩

/-- C7 counterexample: a login body with all four required fields present
(vanderbiltId is the empty string) is still rejected with 400, so the
guard does not fire "if and only if" a field is missing from the body. -/
theorem request_validation_400_counterexample :
    loginMissingFields loginBodyEmptyId = true ∧
      loginBodyEmptyId.vanderbiltId ≠ none ∧
      loginBodyEmptyId.email ≠ none ∧
      loginBodyEmptyId.firstName ≠ none ∧
      loginBodyEmptyId.lastName ≠ none := by
  decide

/-! ## Concrete sample documents used by witnesses and counterexamples -/

/-- A fresh event: no owner set, sharing and collaboration disabled. -/
def evBase : Event :=
  { userId := "u1", owner := none, title := "Spring Mixer", description := ""
    checklist := [], notifications := ⟨some true, some 5⟩
    shareId := none, shareEnabled := false, shareCreatedAt := none
    collaborationEnabled := false, collaborationId := none
    collaborators := [], activityLog := [], createdAt := 0, updatedAt := 0 }

/-! ## C4: what the persistence hooks rewrite -/

/-- C4 (amended): the persistence hooks do rewrite fields the caller did
not supply, but only these: saving an Event stamps `updatedAt` with the
save time and defaults `owner` to `userId` when owner is unset, leaving
every other field unchanged; validating a Policy rewrites only
`roleVisibility` (derived from a non-empty `applicableRoles`) and
`severity` (mapping the synonym `'high'` to `'warning'`), leaving every
other field unchanged. -/
theorem persistence_hooks_field_frame (now : Nat) (ev : Event) (p : PolicyDoc) :
    ((eventPreSave now ev).userId = ev.userId ∧
      (eventPreSave now ev).title = ev.title ∧
      (eventPreSave now ev).description = ev.description ∧
      (eventPreSave now ev).checklist = ev.checklist ∧
      (eventPreSave now ev).notifications = ev.notifications ∧
      (eventPreSave now ev).shareId = ev.shareId ∧
      (eventPreSave now ev).shareEnabled = ev.shareEnabled ∧
      (eventPreSave now ev).shareCreatedAt = ev.shareCreatedAt ∧
      (eventPreSave now ev).collaborationEnabled = ev.collaborationEnabled ∧
      (eventPreSave now ev).collaborationId = ev.collaborationId ∧
      (eventPreSave now ev).collaborators = ev.collaborators ∧
      (eventPreSave now ev).activityLog = ev.activityLog ∧
      (eventPreSave now ev).createdAt = ev.createdAt) ∧
    (eventPreSave now ev).updatedAt = now ∧
    ((eventPreSave now ev).owner =
      if ev.owner.getD "" = "" ∧ ev.userId ≠ "" then some ev.userId
      else ev.owner) ∧
    ((policyPreValidate p).category = p.category ∧
      (policyPreValidate p).title = p.title ∧
      (policyPreValidate p).description = p.description ∧
      (policyPreValidate p).requirements = p.requirements ∧
      (policyPreValidate p).citations = p.citations ∧
      (policyPreValidate p).tags = p.tags ∧
      (policyPreValidate p).applicableRoles = p.applicableRoles ∧
      (policyPreValidate p).programTypes = p.programTypes) ∧
    ((policyPreValidate p).severity =
      if p.severity = "high" then "warning" else p.severity) ∧
    ((p.applicableRoles = none ∨ p.applicableRoles = some []) →
      (policyPreValidate p).roleVisibility = p.roleVisibility) := by
  refine ⟨⟨rfl, rfl, rfl, rfl, rfl, rfl, rfl, rfl, rfl, rfl, rfl, rfl, rfl⟩,
    rfl, rfl, ?_, ?_, ?_⟩
  · unfold policyPreValidate
    cases hr : p.applicableRoles <;> dsimp <;> repeat' split
    all_goals simp_all
  · unfold policyPreValidate
    cases hr : p.applicableRoles <;> dsimp <;> repeat' split
    all_goals simp_all
  · intro h
    unfold policyPreValidate
    rcases h with h | h <;> rw [h] <;> dsimp <;> repeat' split
    all_goals simp_all

/-- A policy with no `applicableRoles` and the severity synonym `'high'`. -/
def polBase : PolicyDoc :=
  { category := "Alcohol Policy", title := "Alcohol at events"
    description := "d", requirements := [], citations := [], tags := []
    roleVisibility := "both", applicableRoles := none, programTypes := []
    severity := "high" }

/-- C4 witness: the field-frame theorem applied to concrete documents. -/
theorem persistence_hooks_field_frame_witness :
    (polBase.applicableRoles = none ∨ polBase.applicableRoles = some []) ∧
      (policyPreValidate polBase).roleVisibility = polBase.roleVisibility ∧
      (eventPreSave 2 evBase).updatedAt = 2 := by
  have h := persistence_hooks_field_frame 2 evBase polBase
  exact ⟨Or.inl rfl, h.2.2.2.2.2 (Or.inl rfl), h.2.1⟩

/-- C4 counterexample: saving a fresh event with no `owner` both rewrites
`updatedAt` and adds an `owner` value the caller did not supply, so the
claim that saves never rewrite or add unsupplied fields is false. -/
theorem persistence_hooks_counterexample :
    (eventPreSave 1 evBase).owner ≠ evBase.owner ∧
      (eventPreSave 1 evBase).updatedAt ≠ evBase.updatedAt := by
  decide

/-! ## Sample checklist items (pairwise non-overlapping task texts) -/

/-- Sample item with an explicit `required` timing type. -/
def itemVenue : ChecklistItem :=
  { task := "Book the venue for homecoming", description := "", dueDate := none
    priority := "medium", completed := false, isTimeHeader := false
    timingType := "required" }

/-- Sample item with no timing type supplied (JS falsy). -/
def itemCatering : ChecklistItem :=
  { task := "Order catering supplies now", description := "", dueDate := none
    priority := "high", completed := false, isTimeHeader := false
    timingType := "" }

/-- Sample item with the default timing type. -/
def itemSpeakers : ChecklistItem :=
  { task := "Invite guest speakers early", description := "", dueDate := none
    priority := "low", completed := false, isTimeHeader := false
    timingType := "recommended" }

/-- Sample item with no timing type supplied. -/
def itemPosters : ChecklistItem :=
  { task := "Print posters for the show", description := "", dueDate := none
    priority := "medium", completed := false, isTimeHeader := false
    timingType := "" }

/-! ## C5: routes are not all single-read/single-write -/

set_option maxRecDepth 8000 in
/-- C5 counterexample: with an identical request body, the checklist
stored by `PUT /api/events/:id` differs depending on the existing
document, so the handler derives the stored value from both the existing
document and the request body (a read-modify-write), contradicting the
claim that no handler does so. -/
theorem single_rw_route_counterexample :
    storedChecklistPut [] [itemPosters] ≠
      storedChecklistPut [itemVenue, itemSpeakers] [itemPosters] := by
  decide

set_option maxRecDepth 8000 in
/-- C5 (amended): `PUT /api/events/:id` is a read-modify-write: the
stored checklist and the stored notifications object each depend on both
the existing document and the request body. -/
theorem put_event_read_modify_write :
    (∃ ex1 ex2 b : List ChecklistItem,
      storedChecklistPut ex1 b ≠ storedChecklistPut ex2 b) ∧
    (∃ ex b1 b2 : List ChecklistItem,
      storedChecklistPut ex b1 ≠ storedChecklistPut ex b2) ∧
    (∃ n1 n2 : NotificationSettings, ∃ bn : BodyNotifications,
      mergeNotificationsPut n1 bn ≠ mergeNotificationsPut n2 bn) ∧
    (∃ n : NotificationSettings, ∃ b1 b2 : BodyNotifications,
      mergeNotificationsPut n b1 ≠ mergeNotificationsPut n b2) := by
  refine ⟨⟨[], [itemVenue, itemSpeakers], [itemPosters], by decide⟩,
    ⟨[itemVenue], [], [itemPosters], by decide⟩,
    ⟨⟨some true, some 5⟩, ⟨some false, some 3⟩, ⟨none, none⟩, by decide⟩,
    ⟨⟨some true, some 5⟩, ⟨some (some false), none⟩, ⟨none, none⟩, by decide⟩⟩

/-! ## C10: the PUT checklist merge never shrinks the stored checklist -/

/-- C10: when the submitted checklist has the same length as the existing
one it replaces it item by item, with `timingType` taken from the
submitted item, else the existing item at the same index, else
`'recommended'`; when the lengths differ, only submitted items that do
not match an existing task (case-insensitive 20-character-prefix
containment, either direction) are appended after the existing items, no
existing item is removed, and in all cases the stored checklist is at
least as long as the existing one. -/
theorem put_checklist_never_shrinks (ex inc : List ChecklistItem) :
    ex.length ≤ (storedChecklistPut ex inc).length ∧
    (∀ (hlen : inc.length = ex.length) (i : Nat) (hi : i < inc.length),
      (storedChecklistPut ex inc).get? i =
        some { inc.get ⟨i, hi⟩ with
               timingType := jsOrStr (inc.get ⟨i, hi⟩).timingType
                 (jsOrStr (ex.get ⟨i, hlen ▸ hi⟩).timingType "recommended") }) ∧
    (inc.length ≠ ex.length →
      storedChecklistPut ex inc = ex ++
        ((inc.filter fun n => !(ex.any fun e => taskOverlap e.task n.task)).map
          fun item => { item with timingType := jsOrStr item.timingType "recommended" }) ∧
      ∀ i, i < ex.length → (storedChecklistPut ex inc).get? i = ex.get? i) := by
  have happend : inc.length ≠ ex.length →
      storedChecklistPut ex inc = ex ++
        ((inc.filter fun n => !(ex.any fun e => taskOverlap e.task n.task)).map
          fun item => { item with timingType := jsOrStr item.timingType "recommended" }) := by
    intro hne
    unfold storedChecklistPut mergeChecklistPut
    rw [if_neg hne]
    by_cases h0 :
      ((inc.filter fun n => !(ex.any fun e => taskOverlap e.task n.task)).length ≠ 0)
    · rw [if_pos h0]
      rfl
    · rw [if_neg h0]
      have hz : (inc.filter fun n => !(ex.any fun e => taskOverlap e.task n.task)) = [] :=
        List.length_eq_zero.mp (not_not.mp h0)
      simp [hz]
  refine ⟨?_, ?_, fun hne => ⟨happend hne, ?_⟩⟩
  · by_cases hlen : inc.length = ex.length
    · unfold storedChecklistPut mergeChecklistPut
      rw [if_pos hlen]
      simp [hlen]
    · rw [happend hlen]
      simp
  · intro hlen i hi
    have hex : i < ex.length := hlen ▸ hi
    unfold storedChecklistPut mergeChecklistPut
    rw [if_pos hlen]
    simp only [Option.getD_some, List.get?_map, List.get?_enum,
      List.get?_eq_get hi, Option.map_some']
    simp only [timingTypeFor, List.get?_eq_get hex]
    rfl
  · intro i hi
    rw [happend hne]
    exact List.get?_append hi

/-- C10 witness: the merge theorem applied to a concrete one-item
replacement (submitted timing type empty, existing one `required`). -/
theorem put_checklist_never_shrinks_witness :
    (storedChecklistPut [itemVenue] [itemCatering]).get? 0 =
      some { itemCatering with
             timingType := jsOrStr itemCatering.timingType
               (jsOrStr itemVenue.timingType "recommended") } := by
  have h := (put_checklist_never_shrinks [itemVenue] [itemCatering]).2.1 rfl 0
    (by decide)
  exact h

/-! ## C3: the daily reminder sweep -/

/-- Filtering before `filterMap` is `filterMap` with a guard. -/
lemma filterMap_of_filter (l : List α) (p : α → Bool) (f : α → Option β) :
    (l.filter p).filterMap f = l.filterMap fun a => if p a then f a else none := by
  induction l with
  | nil => rfl
  | cons x xs ih =>
      by_cases h : p x <;> simp [h, ih, List.filter_cons, List.filterMap_cons]

/-- C3: the only background task is the single daily 08:00 cron job; one
run emits at most one email per event, only for events whose
`emailOptIn` is not `false`; an emitted email goes to the event user's
address and lists exactly the checklist tasks that are not completed,
are not time headers, and are due on the calendar day `reminderDays`
days after today (`reminderDays` from the event, defaulting to 5); no
email is emitted when there is no such task or the user record is
missing or has no email address. -/
theorem cron_daily_reminders (now : Nat) (findUser : String → Option UserDoc)
    (events : List Event) (ev : Event) :
    cronScheduleSpec = "0 8 * * *" ∧
    (cronDailyRun now findUser events).length ≤ events.length ∧
    (cronDailyRun now findUser events = events.filterMap fun e =>
      if e.notifications.emailOptIn = some false then none
      else eventReminder now findUser e) ∧
    (∀ em, eventReminder now findUser ev = some em →
      em.tasks = dueTasksFor now ev ∧ em.tasks ≠ [] ∧
      em.reminderDays = reminderDaysOf ev ∧ em.eventTitle = ev.title ∧
      ∃ u, findUser ev.userId = some u ∧ u.email ≠ "" ∧ em.sendTo = u.email) ∧
    (eventReminder now findUser ev = none ↔
      (dueTasksFor now ev = [] ∨ findUser ev.userId = none ∨
        ∃ u, findUser ev.userId = some u ∧ u.email = "")) ∧
    (∀ t, t ∈ dueTasksFor now ev ↔
      (t ∈ ev.checklist ∧ t.isTimeHeader = false ∧ t.completed = false ∧
        ∃ d, t.dueDate = some d ∧
          d / msPerDay = now / msPerDay + reminderDaysOf ev)) := by
  refine ⟨rfl, ?_, ?_, ?_, ?_, ?_⟩
  · exact le_trans (List.length_filterMap_le _ _) (List.length_filter_le _ _)
  · unfold cronDailyRun
    rw [filterMap_of_filter]
    congr 1
    funext e
    by_cases h : e.notifications.emailOptIn = some false
    · simp [h]
    · simp [h]
  · intro em hem
    unfold eventReminder at hem
    cases hl : dueTasksFor now ev with
    | nil => rw [hl] at hem; simp at hem
    | cons a as =>
        rw [hl] at hem
        cases hu : findUser ev.userId with
        | none => rw [hu] at hem; simp at hem
        | some u =>
            rw [hu] at hem
            by_cases he : u.email = ""
            · simp [he] at hem
            · simp [he] at hem
              subst hem
              exact ⟨rfl, by simp, rfl, rfl, u, rfl, he, rfl⟩
  · unfold eventReminder
    cases hl : dueTasksFor now ev with
    | nil => simp
    | cons a as =>
        cases hu : findUser ev.userId with
        | none => simp [hu]
        | some u =>
            by_cases he : u.email = ""
            · simp [hu, he]
            · simp [hu, he]
  · intro t
    unfold dueTasksFor
    rw [List.mem_filter]
    cases hdd : t.dueDate with
    | none => simp [hdd]
    | some d => simp [hdd, Nat.beq_eq_true_eq, and_assoc]

/-- A task due on calendar day 5 (five days after day 0). -/
def itemDue : ChecklistItem :=
  { task := "Submit space request", description := "", dueDate := some 432000123
    priority := "high", completed := false, isTimeHeader := false
    timingType := "required" }

/-- An event owned by `u1` with one task due in five days. -/
def evDue : Event := { evBase with title := "Fall Fest", checklist := [itemDue] }

/-- A user lookup that knows only `u1`. -/
def findUserDemo : String → Option UserDoc := fun uid =>
  if uid = "u1" then some ⟨"V123", "ann@example.edu", "Ann", "Lee"⟩ else none

/-- The single reminder email the cron sweep produces for `evDue`. -/
def emDemo : ReminderEmail := ⟨"ann@example.edu", "Fall Fest", [itemDue], 5⟩

/-- C3 witness: the cron theorem applied to a concrete event whose one
incomplete task is due exactly five days after the current day. -/
theorem cron_daily_reminders_witness :
    emDemo.tasks = dueTasksFor 0 evDue ∧ emDemo.tasks ≠ [] ∧
      emDemo.reminderDays = reminderDaysOf evDue ∧
      emDemo.eventTitle = evDue.title ∧
      ∃ u, findUserDemo evDue.userId = some u ∧ u.email ≠ "" ∧
        emDemo.sendTo = u.email :=
  (cron_daily_reminders 0 findUserDemo [] evDue).2.2.2.1 emDemo (by decide)

/-! ## C6: the share and collaboration-enable endpoints are idempotent -/

/-- C6 counterexample: a second identical share request (with a different
fresh token available) returns the original shareId and performs no
save, so the endpoint does not "produce a fresh token or new state
change" on repetition. -/
theorem share_not_idempotent_counterexample :
    createShareLink
        (some ((createShareLink (some evBase) "tok1" 10).saved.getD evBase))
        "tok2" 20 = ⟨200, some "tok1", none⟩ ∧
      ("tok1" : String) ≠ "tok2" := by
  decide

/-- C6 (amended): `POST /api/events/:id/share` and
`POST /api/events/:id/collaboration/enable` are idempotent by design: on
an event whose share link / collaboration is already enabled they return
the stored id and write nothing, and repeating a first successful call
returns the token minted by the first call with no further state
change. -/
theorem share_and_enable_idempotent (ev : Event) (t t' : String) (n n' : Nat) :
    (ev.shareEnabled = true → ev.shareId.getD "" ≠ "" →
      createShareLink (some ev) t n = ⟨200, ev.shareId, none⟩) ∧
    (ev.collaborationEnabled = true →
      enableCollaboration (some ev) t n = ⟨200, ev.collaborationId, none⟩) ∧
    (ev.shareEnabled = false → t' ≠ "" →
      createShareLink
          (some ((createShareLink (some ev) t' n).saved.getD ev)) t n' =
        ⟨200, some t', none⟩) ∧
    (ev.collaborationEnabled = false →
      enableCollaboration
          (some ((enableCollaboration (some ev) t' n).saved.getD ev)) t n' =
        ⟨200, some t', none⟩) := by
  refine ⟨?_, ?_, ?_, ?_⟩
  · intro hs hid
    simp [createShareLink, hs, hid]
  · intro hc
    simp [enableCollaboration, hc]
  · intro hs ht
    simp [createShareLink, eventPreSave, hs, ht]
  · intro hc
    simp [enableCollaboration, eventPreSave, hc]

/-- C6 witness: the idempotence theorem applied to a fresh concrete
event: enabling collaboration twice returns the first token unchanged. -/
theorem share_and_enable_idempotent_witness :
    evBase.collaborationEnabled = false ∧
      enableCollaboration
          (some ((enableCollaboration (some evBase) "t1" 3).saved.getD evBase))
          "t2" 4 = ⟨200, some "t1", none⟩ :=
  ⟨rfl, (share_and_enable_idempotent evBase "t2" "t1" 3 4).2.2.2 rfl⟩

/-! ## C8: the public event view hides `_id`, `userId`, `__v` -/

/-- C8: on a hit, the public share endpoint returns every stored field
except `userId` and `__v`, with the database `_id` exposed only under
the key `id`; on a miss it returns 404; in both cases the database is
unchanged. -/
theorem public_event_view (db : List JDoc) (sid : String) :
    ((getPublicEventHandler db sid).2.2 = db) ∧
    (∀ ev, findSharedEvent db sid = some ev →
      (getPublicEventHandler db sid).1 = 200 ∧
      ∃ resp, (getPublicEventHandler db sid).2.1 = some resp ∧
        resp "id" = ev "_id" ∧ resp "_id" = none ∧
        resp "userId" = none ∧ resp "__v" = none ∧
        ∀ k, k ≠ "id" → k ≠ "_id" → k ≠ "userId" → k ≠ "__v" →
          resp k = ev k) ∧
    (findSharedEvent db sid = none →
      getPublicEventHandler db sid = (404, none, db)) := by
  refine ⟨?_, ?_, ?_⟩
  · unfold getPublicEventHandler
    cases findSharedEvent db sid <;> rfl
  · intro ev hev
    unfold getPublicEventHandler
    rw [hev]
    refine ⟨rfl, publicEventResponse ev, rfl, rfl, ?_, ?_, ?_, ?_⟩
    · simp [publicEventResponse]
    · simp [publicEventResponse]
    · simp [publicEventResponse]
    · intro k h1 h2 h3 h4
      simp [publicEventResponse, h1, h2, h3, h4]
  · intro hnone
    unfold getPublicEventHandler
    rw [hnone]

/-- The stored shared document used by the C8 witness. -/
def docShared : JDoc := fun k =>
  if k = "shareId" then some (JVal.jstr "s1")
  else if k = "shareEnabled" then some (JVal.jbool true)
  else if k = "_id" then some (JVal.jstr "e77")
  else if k = "userId" then some (JVal.jstr "u1")
  else if k = "title" then some (JVal.jstr "Gala")
  else none

/-- C8 witness: the projection theorem applied to a one-document
database that matches the requested shareId. -/
theorem public_event_view_witness :
    (getPublicEventHandler [docShared] "s1").1 = 200 ∧
      ∃ resp, (getPublicEventHandler [docShared] "s1").2.1 = some resp ∧
        resp "id" = docShared "_id" ∧ resp "_id" = none ∧
        resp "userId" = none ∧ resp "__v" = none ∧
        ∀ k, k ≠ "id" → k ≠ "_id" → k ≠ "userId" → k ≠ "__v" →
          resp k = docShared k :=
  (public_event_view [docShared] "s1").2.1 docShared rfl

/-! ## C9: the signed unsubscribe endpoint -/

/-- C9 (amended): stored state changes only when the `sig` query
parameter equals the HMAC signature of `uid + '|' + eid` and the event
`eid` exists with `userId = uid`; in that case the handler sets
`notifications.emailOptIn` to `false`, keeps the other notification
fields, and — via the schema save hook — stamps `updatedAt` and defaults
`owner`; in every other case it returns an error status and no event is
modified. -/
theorem unsubscribe_signed_optout (hmac : String → String)
    (findById : String → Option Event) (uid eid sig : Option String) (now : Nat) :
    (∀ evSaved, (unsubscribeHandler hmac findById uid eid sig now).2 = some evSaved →
      ∃ u e ev, uid = some u ∧ eid = some e ∧
        sig = some (signUnsubscribe hmac u e) ∧
        findById e = some ev ∧ ev.userId = u ∧
        evSaved = eventPreSave now
          { ev with notifications :=
              { ev.notifications with emailOptIn := some false } }) ∧
    (∀ u e ev, uid = some u → u ≠ "" → eid = some e → e ≠ "" →
      sig = some (signUnsubscribe hmac u e) → signUnsubscribe hmac u e ≠ "" →
      findById e = some ev → ev.userId = u →
      unsubscribeHandler hmac findById uid eid sig now =
        (200, some (eventPreSave now
          { ev with notifications :=
              { ev.notifications with emailOptIn := some false } }))) ∧
    ((unsubscribeHandler hmac findById uid eid sig now).2 = none ↔
      (unsubscribeHandler hmac findById uid eid sig now).1 ≠ 200) := by
  refine ⟨?_, ?_, ?_⟩
  · intro evSaved h
    unfold unsubscribeHandler at h
    by_cases g1 : (uid.getD "" = "" ∨ eid.getD "" = "" ∨ sig.getD "" = "")
    · rw [if_pos g1] at h
      simp at h
    · rw [if_neg g1] at h
      push_neg at g1
      obtain ⟨hu, he, hs⟩ := g1
      by_cases g2 : sig.getD "" ≠ signUnsubscribe hmac (uid.getD "") (eid.getD "")
      · rw [if_pos g2] at h
        simp at h
      · rw [if_neg g2] at h
        push_neg at g2
        cases hev : findById (eid.getD "") with
        | none => rw [hev] at h; simp at h
        | some ev =>
            rw [hev] at h
            dsimp only [] at h
            by_cases g3 : ev.userId ≠ uid.getD ""
            · rw [if_pos g3] at h
              simp at h
            · rw [if_neg g3] at h
              push_neg at g3
              simp only [Option.some.injEq] at h
              cases huid : uid with
              | none => rw [huid] at hu; simp at hu
              | some u0 =>
                  cases heid : eid with
                  | none => rw [heid] at he; simp at he
                  | some e0 =>
                      cases hsig : sig with
                      | none => rw [hsig] at hs; simp at hs
                      | some s0 =>
                          refine ⟨u0, e0, ev, rfl, rfl, ?_, ?_, ?_, ?_⟩
                          · rw [huid, heid, hsig] at g2
                            simp only [Option.getD_some] at g2
                            rw [g2]
                          · rw [heid] at hev
                            simp only [Option.getD_some] at hev
                            exact hev
                          · rw [huid] at g3
                            simp only [Option.getD_some] at g3
                            exact g3
                          · exact h.symm
  · intro u e ev huid hu heid he hsig hsg hev hown
    unfold unsubscribeHandler
    rw [huid, heid, hsig]
    simp only [Option.getD_some]
    rw [if_neg (by simp [hu, he, hsg])]
    rw [if_neg (by simp)]
    rw [hev]
    dsimp only []
    rw [if_neg (by simp [hown])]
  · unfold unsubscribeHandler
    by_cases g1 : (uid.getD "" = "" ∨ eid.getD "" = "" ∨ sig.getD "" = "")
    · rw [if_pos g1]
      simp
    · rw [if_neg g1]
      by_cases g2 : sig.getD "" ≠ signUnsubscribe hmac (uid.getD "") (eid.getD "")
      · rw [if_pos g2]
        simp
      · rw [if_neg g2]
        cases hev : findById (eid.getD "") with
        | none => simp
        | some ev =>
            dsimp only []
            by_cases g3 : ev.userId ≠ uid.getD ""
            · rw [if_pos g3]
              simp
            · rw [if_neg g3]
              simp

/-- The HMAC stand-in used by the concrete C9 inputs. -/
def hmacDemo : String → String := fun s => s ++ "#mac"

/-- Event lookup knowing only event `e1` (owned by `u1`, `updatedAt 0`). -/
def findByIdDemo : String → Option Event := fun e =>
  if e = "e1" then some evBase else none

/-- C9 counterexample: a valid signed unsubscribe for `e1` stores an
event whose `updatedAt` (and `owner`) differ from the original, so the
handler does not set `emailOptIn` and "change nothing else". -/
theorem unsubscribe_counterexample :
    (unsubscribeHandler hmacDemo findByIdDemo (some "u1") (some "e1")
        (some "u1|e1#mac") 1).2 =
      some { evBase with
             notifications := { evBase.notifications with emailOptIn := some false }
             updatedAt := 1
             owner := some "u1" } ∧
      evBase.updatedAt ≠ 1 ∧ evBase.owner ≠ some "u1" := by
  decide

/-- C9 witness: the unsubscribe theorem applied to the concrete signed
request for event `e1`. -/
theorem unsubscribe_signed_optout_witness :
    unsubscribeHandler hmacDemo findByIdDemo (some "u1") (some "e1")
        (some (signUnsubscribe hmacDemo "u1" "e1")) 1 =
      (200, some (eventPreSave 1
        { evBase with notifications :=
            { evBase.notifications with emailOptIn := some false } })) :=
  (unsubscribe_signed_optout hmacDemo findByIdDemo (some "u1") (some "e1")
      (some (signUnsubscribe hmacDemo "u1" "e1")) 1).2.1 "u1" "e1" evBase rfl
    (by decide) rfl (by decide) rfl (by decide) (by decide) rfl

/-! ## C1: the collaborate PUT permission gate -/

/-- The claim-side permission condition: the supplied userId equals the
event's owner (or userId), or the supplied userId / normalized email
matches a listed collaborator whose permission is `edit` or `admin`. -/
def collabClaimPermission (ev : Event) (userId : Option String)
    (email : String) : Prop :=
  (userId.getD "" ≠ "" ∧ effectiveOwner ev = userId.getD "") ∨
    ∃ c ∈ ev.collaborators, collabMatches userId email c = true ∧
      (c.permission = "edit" ∨ c.permission = "admin")

instance (ev : Event) (userId : Option String) (email : String) :
    Decidable (collabClaimPermission ev userId email) := by
  unfold collabClaimPermission
  infer_instance

/-- The code-side check implies the claim-side permission condition (the
converse can fail: the code consults only the first matching
collaborator). -/
lemma hasEdit_implies_claim (ev : Event) (userId : Option String)
    (email : String) :
    collabHasEditPermission ev userId email = true →
    collabClaimPermission ev userId email := by
  intro h
  unfold collabHasEditPermission at h
  rw [Bool.or_eq_true] at h
  rcases h with h | h
  · left
    unfold collabIsOwner at h
    rw [Bool.and_eq_true] at h
    refine ⟨by simpa using h.1, ?_⟩
    have := h.2
    simpa [beq_iff_eq] using this
  · right
    cases hf : ev.collaborators.find? (collabMatches userId email) with
    | none => rw [hf] at h; simp at h
    | some c =>
        rw [hf] at h
        refine ⟨c, List.mem_of_find?_eq_some hf, List.find?_some hf, ?_⟩
        simpa [beq_iff_eq] using h

/-- The three outcomes of the collaborate PUT on a found event. -/
lemma collabPut_branches (ev : Event) (body : CollabPutBody)
    (rest : Event → Event) (now : Nat) :
    (body.userId.getD "" = "" ∧ normEmail body.email = "" →
      collabPutHandler (some ev) body rest now = ⟨400, none⟩) ∧
    (¬(body.userId.getD "" = "" ∧ normEmail body.email = "") →
      collabHasEditPermission ev body.userId (normEmail body.email) = false →
      collabPutHandler (some ev) body rest now = ⟨403, none⟩) ∧
    (¬(body.userId.getD "" = "" ∧ normEmail body.email = "") →
      collabHasEditPermission ev body.userId (normEmail body.email) = true →
      (collabPutHandler (some ev) body rest now).status = 200 ∧
        (collabPutHandler (some ev) body rest now).saved ≠ none) := by
  refine ⟨?_, ?_, ?_⟩
  · intro g1
    unfold collabPutHandler
    rw [if_pos g1]
  · intro g1 g2
    unfold collabPutHandler
    rw [if_neg g1]
    dsimp only []
    rw [if_pos (by rw [g2]; rfl)]
  · intro g1 g2
    unfold collabPutHandler
    rw [if_neg g1]
    dsimp only []
    rw [if_neg (by rw [g2]; simp)]
    exact ⟨rfl, by simp⟩

/-- C1 (amended): of the collaboration endpoints, only the PUT checks the
requester: its update is applied only under the claim's permission
condition; an unauthorized request that supplies neither userId nor
email receives HTTP 400, any other unauthorized request receives HTTP
403, and in both cases the event is unchanged; an authorized request
(owner, or first matching collaborator with edit/admin) is applied.  The
collaboration-enable endpoint writes without any requester check. -/
theorem collab_put_permission_gate (ev : Event) (body : CollabPutBody)
    (rest : Event → Event) (now : Nat) (t : String) (n : Nat) :
    ((collabPutHandler (some ev) body rest now).saved ≠ none →
      collabClaimPermission ev body.userId (normEmail body.email)) ∧
    (¬ collabClaimPermission ev body.userId (normEmail body.email) →
      (body.userId.getD "" = "" ∧ normEmail body.email = "" →
        collabPutHandler (some ev) body rest now = ⟨400, none⟩) ∧
      (¬(body.userId.getD "" = "" ∧ normEmail body.email = "") →
        collabPutHandler (some ev) body rest now = ⟨403, none⟩)) ∧
    (collabHasEditPermission ev body.userId (normEmail body.email) = true →
      ¬(body.userId.getD "" = "" ∧ normEmail body.email = "") →
      (collabPutHandler (some ev) body rest now).status = 200 ∧
        (collabPutHandler (some ev) body rest now).saved ≠ none) ∧
    (ev.collaborationEnabled = false →
      (enableCollaboration (some ev) t n).saved ≠ none) := by
  obtain ⟨h400, h403, h200⟩ := collabPut_branches ev body rest now
  refine ⟨?_, ?_, ?_, ?_⟩
  · intro hsaved
    by_cases g1 : (body.userId.getD "" = "" ∧ normEmail body.email = "")
    · exact absurd (by rw [h400 g1]) hsaved
    · by_cases g2 :
        collabHasEditPermission ev body.userId (normEmail body.email) = true
      · exact hasEdit_implies_claim ev body.userId (normEmail body.email) g2
      · exact absurd (by rw [h403 g1 (Bool.not_eq_true _ ▸ g2)]) hsaved
  · intro hperm
    refine ⟨h400, fun g1 => ?_⟩
    by_cases g2 :
      collabHasEditPermission ev body.userId (normEmail body.email) = true
    · exact absurd (hasEdit_implies_claim ev body.userId (normEmail body.email) g2)
        hperm
    · exact h403 g1 (Bool.not_eq_true _ ▸ g2)
  · intro g2 g1
    exact h200 g1 g2
  · intro hc
    simp [enableCollaboration, hc]

/-- A collaboration-enabled event with one `edit` collaborator. -/
def evCollab : Event :=
  { evBase with
    collaborationEnabled := true
    collaborationId := some "c1"
    collaborators := [⟨some "u2", "friend@x.edu", "Fred", "Lane", "edit", 0, none, 0⟩] }

/-- A PUT body supplying neither a userId nor an email. -/
def bodyNoCreds : CollabPutBody := ⟨none, none, none, none, ["title"]⟩

/-- C1 counterexample: an unauthorized collaborate PUT with no
credentials receives HTTP 400, not 403; and the collaboration-enable
endpoint performs a write with no requester permission input at all. -/
theorem collab_permission_counterexample :
    (collabPutHandler (some evCollab) bodyNoCreds id 5).status = 400 ∧
      (400 : Nat) ≠ 403 ∧
      evBase.collaborationEnabled = false ∧
      (enableCollaboration (some evBase) "ctok" 7).saved ≠ none := by
  decide

/-- A PUT body from a user who is neither owner nor collaborator. -/
def bodyStranger : CollabPutBody := ⟨some "u3", some "Stray", none, none, ["title"]⟩

/-- C1 witness: the permission-gate theorem applied to a concrete
unauthorized request carrying a userId: HTTP 403 and no write. -/
theorem collab_put_permission_gate_witness :
    collabPutHandler (some evCollab) bodyStranger id 9 = ⟨403, none⟩ :=
  ((collab_put_permission_gate evCollab bodyStranger id 9 "tk" 0).2.1
      (by decide)).2 (by decide)

end ProgramPlanning
